import Mathlib

/-!
Verification of the contact-management Flask application (src/app.py).

The Python program is shallowly embedded: dictionaries become association
lists over a small dynamic value type `PyVal`, the outbound HTTP call of
the address validator becomes an explicit `HttpOutcome` argument, the file
system becomes a map from paths to optional contents, the Jinja engine
becomes an opaque function argument, and `random.choice` becomes an
explicit `pick : Nat` argument used as an index. Definitions come first,
theorems afterwards.
-/

/-- Dynamic values stored in a contact dictionary: strings, integers,
booleans, a JSON-array payload (elements kept opaque as strings), or the
Python value None. -/
inductive PyVal where
  | str (s : String)
  | int (n : Int)
  | bool (b : Bool)
  | list (xs : List String)
  | none
deriving DecidableEq, Repr

/-- Outcome of the single outbound HTTP GET performed by the validator:
either a response with a status code and a parsed JSON-array body, or a
transport failure (requests.RequestException). -/
inductive HttpOutcome where
  | response (status : Nat) (body : List String)
  | transportError (msg : String)
deriving DecidableEq, Repr

/-- Return value of validate_address_smarty: the structured match payload
(a non-empty JSON array), the Python boolean False (no deliverable match),
or one of the string sentinels. -/
inductive ValidationResult where
  | payload (data : List String)
  | noMatch
  | sentinel (s : String)
deriving DecidableEq, Repr

/-- The PyVal a ValidationResult becomes when stored in a contact dict. -/
def pyOfResult : ValidationResult → PyVal
  | ValidationResult.payload xs => PyVal.list xs
  | ValidationResult.noMatch => PyVal.bool false
  | ValidationResult.sentinel s => PyVal.str s

/-- Python truthiness of an optional string: None and the empty string are
falsy (`if not auth_id` in the source). -/
def pyTruthyStr : Option String → Bool
  | Option.none => false
  | some s => decide (s ≠ "")

/-- Embedding of validate_address_smarty (src/app.py lines 68-100).
The second component of the result records whether the HTTP request was
issued. The address fields flow only into the request parameters. -/
def validate_address_smarty (_address _city _state _zipcode : String)
    (auth_id auth_token : Option String) (net : HttpOutcome) :
    ValidationResult × Bool :=
  if !(pyTruthyStr auth_id) || !(pyTruthyStr auth_token) then
    (ValidationResult.sentinel "Not Validated", false)
  else
    match net with
    | HttpOutcome.response status body =>
        if status = 200 then
          if body.isEmpty then (ValidationResult.noMatch, true)
          else (ValidationResult.payload body, true)
        else (ValidationResult.sentinel "API Error", true)
    | HttpOutcome.transportError _ =>
        (ValidationResult.sentinel "Validation Failed", true)

/-- A Python dict as the contact rows use it: an association list from
string keys to dynamic values (keys unique, insertion-ordered). -/
abbrev Contact := List (String × PyVal)

/-- Lookup in an insertion-ordered association list: the value of the
first binding whose key matches, as a Python dict read does. -/
def alookup {α : Type} : List (String × α) → String → Option α
  | [], _ => Option.none
  | (a, b) :: rest, k => if k = a then some b else alookup rest k

/-- Python dict.get with a default. -/
def dget (c : Contact) (k : String) (d : PyVal) : PyVal :=
  (alookup c k).getD d

/-- Python dict assignment c[k] = v: replace the value of an existing key
in place (position kept), otherwise append the new key at the end. -/
def dset (c : Contact) (k : String) (v : PyVal) : Contact :=
  if (alookup c k).isSome then
    c.map (fun p => if p.1 = k then (k, v) else p)
  else c ++ [(k, v)]

/-- String content of a PyVal, for the address fields read with bracket
access in the endpoint loop. -/
def asStr : PyVal → String
  | PyVal.str s => s
  | _ => ""

/-- Embedding of get_template_files (src/app.py lines 155-162): the fixed
style-to-filename mapping, in source order. -/
def get_template_files : List (String × String) :=
  [("modern", "modern_template.html"),
   ("dark", "dark_template.html"),
   ("neon", "neon_template.html"),
   ("retro", "retro_template.html")]

/-- Embedding of select_template_style (src/app.py lines 164-173).
random.choice over the style keys is modelled by an explicit pick used as
an index modulo the number of styles. -/
def select_template_style (template_style : String) (pick : Nat) : String :=
  let keys := get_template_files.map Prod.fst
  if template_style = "random" then keys.getD (pick % keys.length) "modern"
  else template_style

/-- Embedding of load_template (src/app.py lines 175-185). The file system
is a map from paths to optional contents; a missing file becomes the
FileNotFoundError message as an Except.error. -/
def load_template (template_style : String) (templates_dir : String)
    (fs : String → Option String) : Except String String :=
  let template_filename :=
    (alookup get_template_files template_style).getD "modern_template.html"
  let template_path := templates_dir ++ "/" ++ template_filename
  match fs template_path with
  | Option.none => Except.error ("Template file not found: " ++ template_path)
  | some content => Except.ok content

/-- Embedding of get_validation_attributes (src/app.py lines 187-194):
(css_class, badge_class, validation_text) from the stored status value. -/
def get_validation_attributes (valid_status : PyVal) :
    String × String × String :=
  if valid_status = PyVal.str "valid" then
    ("valid", "valid-badge", "Valid Address")
  else if valid_status = PyVal.str "invalid" then
    ("invalid", "invalid-badge", "Invalid Address")
  else
    ("not-validated", "not-validated-badge", "Not Validated")

/-- Body of the prepare_contact_data loop (src/app.py lines 198-204) for a
single contact: read the status under the valid key with the empty-string
default of contact.get, then set
the three derived keys. -/
def prepare_contact_one (contact : Contact) : Contact :=
  let valid_status := dget contact "valid" (PyVal.str "")
  let attrs := get_validation_attributes valid_status
  dset (dset (dset contact "css_class" (PyVal.str attrs.1))
    "badge_class" (PyVal.str attrs.2.1)) "validation_text" (PyVal.str attrs.2.2)

/-- Embedding of prepare_contact_data (src/app.py lines 196-206): the loop
updates every contact in order and the input list is returned. -/
def prepare_contact_data (contacts : List Contact) : List Contact :=
  contacts.map prepare_contact_one

/-- Embedding of prepare_template_data (src/app.py lines 208-215);
datetime.now is an explicit timestamp argument. -/
def prepare_template_data (contacts : List Contact) (now : String) :
    List Contact × String :=
  (prepare_contact_data contacts, now)

/-- Embedding of render_custom_template (src/app.py lines 217-220); the
Jinja engine is an opaque function of the template text and the data. -/
def render_custom_template (engine : String → List Contact × String → String)
    (template_content : String) (template_data : List Contact × String) :
    String :=
  engine template_content template_data

/-- The rendering pipeline of the spec contract render(style, dir,
contacts): style resolution, template load, data preparation, engine call,
exactly as composed inside generate_html_file (src/app.py lines 228-237). -/
def render (template_style templates_dir : String)
    (fs : String → Option String) (contacts : List Contact) (now : String)
    (pick : Nat) (engine : String → List Contact × String → String) :
    Except String String :=
  let selected_style := select_template_style template_style pick
  (load_template selected_style templates_dir fs).map
    (fun content =>
      render_custom_template engine content (prepare_template_data contacts now))

/-- Embedding of generate_html_file (src/app.py lines 222-245): on success
returns (output_path, selected_style) plus the list of file writes
performed; a missing template propagates as Except.error. -/
def generate_html_file (engine : String → List Contact × String → String)
    (fs : String → Option String) (pick : Nat)
    (output_dir templates_dir now : String) (contacts : List Contact)
    (template_style output_filename : String) :
    Except String (String × String × List (String × String)) :=
  let selected_style := select_template_style template_style pick
  match load_template selected_style templates_dir fs with
  | Except.error e => Except.error e
  | Except.ok template_content =>
      let template_data := prepare_template_data contacts now
      let html_content := render_custom_template engine template_content template_data
      let output_path := output_dir ++ "/" ++ output_filename
      Except.ok (output_path, selected_style, [(output_path, html_content)])

/-- The optional JSON body of POST /api/generate. -/
structure GenRequest where
  template_style : Option String
  output_filename : Option String
deriving DecidableEq, Repr

/-- The JSON response of POST /api/generate, with its HTTP status. -/
structure GenResponse where
  status : Nat
  error : Option String
  output_path : Option String
  template_style : Option String
  download_url : Option String
deriving DecidableEq, Repr

/-- Embedding of the api_generate_html endpoint (src/app.py lines 343-368):
defaults from the body, 404 when the store is empty, 400 on
FileNotFoundError; the second component lists the file writes performed. -/
def api_generate_html (engine : String → List Contact × String → String)
    (fs : String → Option String) (pick : Nat)
    (output_dir templates_dir config_template_style now : String)
    (body : Option GenRequest) (contacts : List Contact) :
    GenResponse × List (String × String) :=
  let data := body.getD ⟨Option.none, Option.none⟩
  let template_style := data.template_style.getD config_template_style
  let output_filename := data.output_filename.getD "index.html"
  if contacts.isEmpty then
    ({ status := 404, error := some "No contacts found",
       output_path := Option.none, template_style := Option.none,
       download_url := Option.none }, [])
  else
    match generate_html_file engine fs pick output_dir templates_dir now
        contacts template_style output_filename with
    | Except.ok (output_path, selected_style, writes) =>
        ({ status := 200, error := Option.none,
           output_path := some output_path,
           template_style := some selected_style,
           download_url := some ("/download/" ++ output_filename) }, writes)
    | Except.error e =>
        ({ status := 400, error := some e, output_path := Option.none,
           template_style := Option.none, download_url := Option.none }, [])

/-- The JSON response of POST /api/validate, with its HTTP status on the
error side. -/
inductive ValidateResponse where
  | ok (contacts : List Contact) (count : Nat)
  | err (status : Nat) (msg : String)
deriving DecidableEq, Repr

/-- The validator call made for one contact inside the /api/validate loop
(src/app.py lines 289-296), reading the address fields from the row. -/
def validate_contact (auth_id auth_token : Option String)
    (net_i : HttpOutcome) (c : Contact) : ValidationResult :=
  (validate_address_smarty (asStr (dget c "address" PyVal.none))
    (asStr (dget c "city" PyVal.none)) (asStr (dget c "state" PyVal.none))
    (asStr (dget c "zipcode" PyVal.none)) auth_id auth_token net_i).1

/-- The for-loop of api_validate_addresses (src/app.py lines 288-305).
net gives the HTTP outcome of the validator call for the i-th contact;
writeOk i
tells whether the i-th update_validation_status call succeeds (false means
it raises a database error, which the handle_db_errors decorator catches).
Returns the accumulated validated contacts (or the propagated error) and
the list of (contact id, result) updates committed to the store, in
commit order. -/
def validate_all_loop (auth_id auth_token : Option String)
    (net : Nat → HttpOutcome) (writeOk : Nat → Bool) :
    List Contact → Nat → Except Unit (List Contact) × List (PyVal × ValidationResult)
  | [], _ => (Except.ok [], [])
  | c :: rest, i =>
      let r := validate_contact auth_id auth_token (net i) c
      if writeOk i then
        let step := validate_all_loop auth_id auth_token net writeOk rest (i + 1)
        match step.1 with
        | Except.ok vcs =>
            (Except.ok (dset c "valid" (pyOfResult r) :: vcs),
             (dget c "id" PyVal.none, r) :: step.2)
        | Except.error u =>
            (Except.error u, (dget c "id" PyVal.none, r) :: step.2)
      else (Except.error (), [])

/-- Embedding of the api_validate_addresses endpoint (src/app.py lines
277-311) wrapped in handle_db_errors (lines 54-66): 404 on an empty store,
500 with the decorator message when a store write raises partway, and the
committed updates of the loop as the second component. -/
def api_validate_addresses (auth_id auth_token : Option String)
    (net : Nat → HttpOutcome) (writeOk : Nat → Bool)
    (contacts : List Contact) :
    ValidateResponse × List (PyVal × ValidationResult) :=
  if contacts.isEmpty then (ValidateResponse.err 404 "No contacts found", [])
  else
    match validate_all_loop auth_id auth_token net writeOk contacts 0 with
    | (Except.ok vcs, committed) =>
        (ValidateResponse.ok vcs vcs.length, committed)
    | (Except.error _, committed) =>
        (ValidateResponse.err 500 "Database connection failed", committed)

/-- Specification of the store updates committed for the first j contacts
of the list, starting at loop index i: one (id, validator result) entry
per contact, in store order. -/
def expected_commits (auth_id auth_token : Option String)
    (net : Nat → HttpOutcome) :
    List Contact → Nat → Nat → List (PyVal × ValidationResult)
  | _, _, 0 => []
  | [], _, _ + 1 => []
  | c :: rest, i, j + 1 =>
      (dget c "id" PyVal.none, validate_contact auth_id auth_token (net i) c) ::
        expected_commits auth_id auth_token net rest (i + 1) j

/-- Specification of the validated contact list the loop accumulates when
every store write succeeds: each contact with its valid key set to the
validator result, in store order. -/
def expected_validated (auth_id auth_token : Option String)
    (net : Nat → HttpOutcome) : List Contact → Nat → List Contact
  | [], _ => []
  | c :: rest, i =>
      dset c "valid"
          (pyOfResult (validate_contact auth_id auth_token (net i) c)) ::
        expected_validated auth_id auth_token net rest (i + 1)

/-- Three concrete contact rows as fetch_contacts would deliver them. -/
def c4_three_contacts : List Contact :=
  [[("id", PyVal.int 1), ("first_name", PyVal.str "Ann"),
    ("last_name", PyVal.str "Ames"), ("address", PyVal.str "1 A St"),
    ("city", PyVal.str "Acton"), ("state", PyVal.str "MA"),
    ("zipcode", PyVal.str "01720"), ("country", PyVal.str "USA"),
    ("valid", PyVal.none)],
   [("id", PyVal.int 2), ("first_name", PyVal.str "Bob"),
    ("last_name", PyVal.str "Bond"), ("address", PyVal.str "2 B St"),
    ("city", PyVal.str "Boston"), ("state", PyVal.str "MA"),
    ("zipcode", PyVal.str "02108"), ("country", PyVal.str "USA"),
    ("valid", PyVal.none)],
   [("id", PyVal.int 3), ("first_name", PyVal.str "Cal"),
    ("last_name", PyVal.str "Cole"), ("address", PyVal.str "3 C St"),
    ("city", PyVal.str "Cambridge"), ("state", PyVal.str "MA"),
    ("zipcode", PyVal.str "02139"), ("country", PyVal.str "USA"),
    ("valid", PyVal.none)]]

/-! Helper lemmas about the dict model. -/

/-- Replacing the value of key k2 leaves lookups of any other key alone. -/
theorem alookup_map_update (k k2 : String) (v : PyVal) (h : k ≠ k2) :
    ∀ c : Contact,
      alookup (c.map (fun p => if p.1 = k2 then (k2, v) else p)) k =
        alookup c k
  | [] => rfl
  | (a, b) :: rest => by
    by_cases ha : a = k2
    · have hhead :
          (if (a, b).1 = k2 then ((k2, v) : String × PyVal) else (a, b)) =
            (k2, v) := if_pos ha
      have hka : k ≠ a := fun hh => h (hh.trans ha)
      rw [List.map_cons, hhead]
      simp only [alookup]
      rw [if_neg h, if_neg hka]
      exact alookup_map_update k k2 v h rest
    · have hhead :
          (if (a, b).1 = k2 then ((k2, v) : String × PyVal) else (a, b)) =
            (a, b) := if_neg ha
      rw [List.map_cons, hhead]
      simp only [alookup]
      by_cases hk : k = a
      · rw [if_pos hk, if_pos hk]
      · rw [if_neg hk, if_neg hk]
        exact alookup_map_update k k2 v h rest

/-- Appending a binding for key k2 leaves lookups of any other key alone. -/
theorem alookup_append_single (k k2 : String) (v : PyVal) (h : k ≠ k2) :
    ∀ c : Contact, alookup (c ++ [(k2, v)]) k = alookup c k
  | [] => by
    simp only [List.nil_append, alookup]
    rw [if_neg h]
  | (a, b) :: rest => by
    rw [List.cons_append]
    simp only [alookup]
    by_cases hk : k = a
    · rw [if_pos hk, if_pos hk]
    · rw [if_neg hk, if_neg hk]
      exact alookup_append_single k k2 v h rest

/-- Frame property of dict assignment: other keys are untouched. -/
theorem alookup_dset_ne (c : Contact) (k k2 : String) (v : PyVal)
    (h : k ≠ k2) : alookup (dset c k2 v) k = alookup c k := by
  unfold dset
  split
  · exact alookup_map_update k k2 v h c
  · exact alookup_append_single k k2 v h c

/-- Replacing the value of a present key makes its lookup the new value. -/
theorem alookup_replace_eq (k : String) (v : PyVal) :
    ∀ c : Contact, (alookup c k).isSome = true →
      alookup (c.map (fun p => if p.1 = k then (k, v) else p)) k = some v
  | [], hs => by simp [alookup] at hs
  | (a, b) :: rest, hs => by
    by_cases hk : k = a
    · have hhead :
          (if (a, b).1 = k then ((k, v) : String × PyVal) else (a, b)) =
            (k, v) := if_pos hk.symm
      rw [List.map_cons, hhead]
      simp [alookup]
    · have ha : ¬ a = k := fun hh => hk hh.symm
      have hhead :
          (if (a, b).1 = k then ((k, v) : String × PyVal) else (a, b)) =
            (a, b) := if_neg ha
      rw [List.map_cons, hhead]
      simp only [alookup]
      rw [if_neg hk]
      simp only [alookup] at hs
      rw [if_neg hk] at hs
      exact alookup_replace_eq k v rest hs

/-- Appending a binding for an absent key makes its lookup the value. -/
theorem alookup_append_eq (k : String) (v : PyVal) :
    ∀ c : Contact, alookup c k = Option.none →
      alookup (c ++ [(k, v)]) k = some v
  | [], _ => by
    simp [alookup]
  | (a, b) :: rest, hs => by
    by_cases hk : k = a
    · simp only [alookup] at hs
      rw [if_pos hk] at hs
      exact absurd hs (by simp)
    · simp only [alookup] at hs
      rw [if_neg hk] at hs
      rw [List.cons_append]
      simp only [alookup]
      rw [if_neg hk]
      exact alookup_append_eq k v rest hs

/-- After dict assignment, looking up the assigned key yields the value. -/
theorem alookup_dset_eq (c : Contact) (k : String) (v : PyVal) :
    alookup (dset c k v) k = some v := by
  unfold dset
  split
  · rename_i hs
    exact alookup_replace_eq k v c hs
  · rename_i hs
    refine alookup_append_eq k v c ?_
    cases hx : alookup c k with
    | none => rfl
    | some w => rw [hx] at hs; simp at hs

/-- A style outside the fixed map has no template-file binding. -/
theorem template_files_lookup_not_mem (style : String)
    (h : style ∉ get_template_files.map Prod.fst) :
    alookup get_template_files style = Option.none := by
  simp [get_template_files] at h
  obtain ⟨h1, h2, h3, h4⟩ := h
  simp [get_template_files, alookup, h1, h2, h3, h4]

/-! Claim theorems. -/

/-- C1: with both credentials present, validate_address_smarty maps an
HTTP 200 with non-empty array body to that array, an HTTP 200 with empty
array to the boolean-false outcome, any non-200 status to the sentinel
"API Error", and a transport failure to the sentinel "Validation Failed";
being a total function of the outcome, it raises in none of these cases. -/
theorem c1_validator_outcome_mapping
    (auth_id auth_token : Option String)
    (h1 : pyTruthyStr auth_id = true) (h2 : pyTruthyStr auth_token = true)
    (address city state zipcode : String) :
    (∀ body : List String, body ≠ [] →
      (validate_address_smarty address city state zipcode auth_id auth_token
        (HttpOutcome.response 200 body)).1 = ValidationResult.payload body) ∧
    ((validate_address_smarty address city state zipcode auth_id auth_token
        (HttpOutcome.response 200 [])).1 = ValidationResult.noMatch) ∧
    (∀ (status : Nat) (body : List String), status ≠ 200 →
      (validate_address_smarty address city state zipcode auth_id auth_token
        (HttpOutcome.response status body)).1 =
        ValidationResult.sentinel "API Error") ∧
    (∀ msg : String,
      (validate_address_smarty address city state zipcode auth_id auth_token
        (HttpOutcome.transportError msg)).1 =
        ValidationResult.sentinel "Validation Failed") := by
  refine ⟨?_, ?_, ?_, ?_⟩ <;>
    simp [validate_address_smarty, h1, h2, List.isEmpty_iff]
  · intro body hb
    simp [hb]
  · intro status body hs
    simp [hs]

/-- Witness for c1_validator_outcome_mapping at concrete inputs. -/
theorem c1_validator_outcome_mapping_witness :
    (validate_address_smarty "1 Main St" "Springfield" "VA" "22150"
      (some "id") (some "tok") (HttpOutcome.response 200 ["cand"])).1 =
      ValidationResult.payload ["cand"] ∧
    (validate_address_smarty "1 Main St" "Springfield" "VA" "22150"
      (some "id") (some "tok") (HttpOutcome.response 200 [])).1 =
      ValidationResult.noMatch ∧
    (validate_address_smarty "1 Main St" "Springfield" "VA" "22150"
      (some "id") (some "tok") (HttpOutcome.response 500 [])).1 =
      ValidationResult.sentinel "API Error" ∧
    (validate_address_smarty "1 Main St" "Springfield" "VA" "22150"
      (some "id") (some "tok") (HttpOutcome.transportError "timeout")).1 =
      ValidationResult.sentinel "Validation Failed" := by
  have h := c1_validator_outcome_mapping (some "id") (some "tok")
    (by decide) (by decide) "1 Main St" "Springfield" "VA" "22150"
  exact ⟨h.1 ["cand"] (by decide), h.2.1,
    h.2.2.1 500 [] (by decide), h.2.2.2 "timeout"⟩

/-- C2: if either credential is absent, validate_address_smarty returns
exactly the sentinel "Not Validated" and the HTTP request is never issued
(second component false), for every network outcome. -/
theorem c2_no_credentials_short_circuit
    (auth_id auth_token : Option String)
    (h : auth_id = Option.none ∨ auth_token = Option.none)
    (address city state zipcode : String) (net : HttpOutcome) :
    validate_address_smarty address city state zipcode auth_id auth_token net =
      (ValidationResult.sentinel "Not Validated", false) := by
  rcases h with h | h <;> subst h <;>
    simp [validate_address_smarty, pyTruthyStr]

/-- Witness for c2_no_credentials_short_circuit at a concrete input. -/
theorem c2_no_credentials_short_circuit_witness :
    validate_address_smarty "1 Main St" "Springfield" "VA" "22150"
      Option.none (some "tok") (HttpOutcome.response 200 ["cand"]) =
      (ValidationResult.sentinel "Not Validated", false) :=
  c2_no_credentials_short_circuit Option.none (some "tok") (Or.inl rfl)
    "1 Main St" "Springfield" "VA" "22150" (HttpOutcome.response 200 ["cand"])

/-- C5: get_validation_attributes is the total three-way mapping: the
string "valid" yields valid/valid-badge/"Valid Address", the string
"invalid" yields invalid/invalid-badge/"Invalid Address", and every other
status value — including the boolean false and, through the empty-string
default read in prepare_contact_one, an absent status key — yields
not-validated/not-validated-badge/"Not Validated". -/
theorem c5_validation_attributes_total_mapping :
    get_validation_attributes (PyVal.str "valid") =
      ("valid", "valid-badge", "Valid Address") ∧
    get_validation_attributes (PyVal.str "invalid") =
      ("invalid", "invalid-badge", "Invalid Address") ∧
    (∀ v : PyVal, v ≠ PyVal.str "valid" → v ≠ PyVal.str "invalid" →
      get_validation_attributes v =
        ("not-validated", "not-validated-badge", "Not Validated")) ∧
    get_validation_attributes (PyVal.bool false) =
      ("not-validated", "not-validated-badge", "Not Validated") ∧
    (∀ c : Contact, alookup c "valid" = Option.none →
      alookup (prepare_contact_one c) "css_class" =
        some (PyVal.str "not-validated") ∧
      alookup (prepare_contact_one c) "badge_class" =
        some (PyVal.str "not-validated-badge") ∧
      alookup (prepare_contact_one c) "validation_text" =
        some (PyVal.str "Not Validated")) := by
  refine ⟨by decide, by decide, ?_, by decide, ?_⟩
  · intro v h1 h2
    simp [get_validation_attributes, h1, h2]
  · intro c hc
    have hv : dget c "valid" (PyVal.str "") = PyVal.str "" := by
      simp [dget, hc]
    refine ⟨?_, ?_, ?_⟩ <;>
      simp only [prepare_contact_one, hv]
    · rw [alookup_dset_ne _ _ _ _ (by decide),
        alookup_dset_ne _ _ _ _ (by decide), alookup_dset_eq]
      rfl
    · rw [alookup_dset_ne _ _ _ _ (by decide), alookup_dset_eq]
      rfl
    · rw [alookup_dset_eq]
      rfl

/-- Witness for c5_validation_attributes_total_mapping at concrete
inputs. -/
theorem c5_validation_attributes_total_mapping_witness :
    get_validation_attributes (PyVal.bool false) =
      ("not-validated", "not-validated-badge", "Not Validated") ∧
    alookup (prepare_contact_one [("id", PyVal.int 1)]) "validation_text" =
      some (PyVal.str "Not Validated") := by
  have h := c5_validation_attributes_total_mapping
  exact ⟨h.2.2.1 (PyVal.bool false) (by decide) (by decide),
    (h.2.2.2.2 [("id", PyVal.int 1)] (by decide)).2.2⟩

/-- C6: the style "random" always resolves to a member of the fixed set
{modern, dark, neon, retro} and never to the literal "random", both in
select_template_style for every pick and in the resolved style that
generate_html_file returns on success. -/
theorem c6_random_resolves_to_concrete_style :
    (∀ pick : Nat,
      select_template_style "random" pick ∈
        ["modern", "dark", "neon", "retro"] ∧
      select_template_style "random" pick ≠ "random") ∧
    (∀ (engine : String → List Contact × String → String)
        (fs : String → Option String) (pick : Nat)
        (output_dir templates_dir now : String) (contacts : List Contact)
        (output_filename path style : String)
        (writes : List (String × String)),
      generate_html_file engine fs pick output_dir templates_dir now contacts
          "random" output_filename = Except.ok (path, style, writes) →
      style ∈ ["modern", "dark", "neon", "retro"] ∧ style ≠ "random") := by
  have hsel : ∀ pick : Nat,
      select_template_style "random" pick ∈
        ["modern", "dark", "neon", "retro"] ∧
      select_template_style "random" pick ≠ "random" := by
    intro pick
    have h4 : pick % 4 = 0 ∨ pick % 4 = 1 ∨ pick % 4 = 2 ∨ pick % 4 = 3 := by
      omega
    rcases h4 with h | h | h | h <;>
      simp [select_template_style, get_template_files, h]
  refine ⟨hsel, ?_⟩
  intro engine fs pick output_dir templates_dir now contacts output_filename
    path style writes hgen
  simp only [generate_html_file] at hgen
  cases hload : load_template (select_template_style "random" pick)
      templates_dir fs with
  | error e =>
      rw [hload] at hgen
      exact absurd hgen (by simp)
  | ok content =>
      rw [hload] at hgen
      simp only [Except.ok.injEq, Prod.mk.injEq] at hgen
      obtain ⟨h1, h2, h3⟩ := hgen
      subst h2
      exact hsel pick

/-- Witness for c6_random_resolves_to_concrete_style at concrete inputs. -/
theorem c6_random_resolves_to_concrete_style_witness :
    "modern" ∈ ["modern", "dark", "neon", "retro"] ∧ "modern" ≠ "random" :=
  (c6_random_resolves_to_concrete_style).2 (fun t _ => t)
    (fun _ => some "TPL") 0 "static/generated" "templates" "ts" [] "index.html"
    ("static/generated" ++ "/" ++ "index.html") "modern"
    [("static/generated" ++ "/" ++ "index.html",
      render_custom_template (fun t _ => t) "TPL"
        (prepare_template_data [] "ts"))] (by rfl)

/-- C7: rendering with an unrecognized style name (outside the fixed set
and different from "random") is the same as rendering with "modern": the
pipelines agree on every input, and when the modern template file exists
the unrecognized style does not fail. -/
theorem c7_unrecognized_style_equals_modern
    (style : String) (hmem : style ∉ get_template_files.map Prod.fst)
    (hrand : style ≠ "random") (templates_dir : String)
    (fs : String → Option String) (contacts : List Contact) (now : String)
    (pick : Nat) (engine : String → List Contact × String → String) :
    render style templates_dir fs contacts now pick engine =
      render "modern" templates_dir fs contacts now pick engine ∧
    (∀ content : String,
      fs (templates_dir ++ "/" ++ "modern_template.html") = some content →
      (render style templates_dir fs contacts now pick engine).isOk = true) := by
  have hsel : select_template_style style pick = style := by
    simp [select_template_style, hrand]
  have hm : select_template_style "modern" pick = "modern" := by
    simp [select_template_style]
  have hlook := template_files_lookup_not_mem style hmem
  have hload : load_template style templates_dir fs =
      load_template "modern" templates_dir fs := by
    simp only [load_template]
    rw [hlook]
    rfl
  constructor
  · simp only [render]
    rw [hsel, hm, hload]
  · intro content hc
    simp only [render]
    rw [hsel]
    simp only [load_template]
    rw [hlook]
    simp [hc, Except.isOk, Except.toBool, Except.map]

/-- Witness for c7_unrecognized_style_equals_modern at concrete inputs. -/
theorem c7_unrecognized_style_equals_modern_witness :
    render "bogus-style" "templates" (fun _ => some "TPL") [] "ts" 0
        (fun t _ => t) =
      render "modern" "templates" (fun _ => some "TPL") [] "ts" 0
        (fun t _ => t) ∧
    (render "bogus-style" "templates" (fun _ => some "TPL") [] "ts" 0
        (fun t _ => t)).isOk = true := by
  have h := c7_unrecognized_style_equals_modern "bogus-style" (by decide)
    (by decide) "templates" (fun _ => some "TPL") [] "ts" 0 (fun t _ => t)
  exact ⟨h.1, h.2 "TPL" rfl⟩

/-- C8: for a style outside the fixed set and different from "random",
generate_html_file renders the content of the modern template yet returns the
unrecognized style name verbatim as the resolved style, and
api_generate_html echoes that name as template_style. -/
theorem c8_unrecognized_style_reported_verbatim
    (style : String) (hmem : style ∉ get_template_files.map Prod.fst)
    (hrand : style ≠ "random")
    (engine : String → List Contact × String → String)
    (fs : String → Option String) (pick : Nat)
    (output_dir templates_dir config_template_style now : String)
    (contacts : List Contact) (output_filename content : String)
    (hfs : fs (templates_dir ++ "/" ++ "modern_template.html") = some content) :
    generate_html_file engine fs pick output_dir templates_dir now contacts
        style output_filename =
      Except.ok (output_dir ++ "/" ++ output_filename, style,
        [(output_dir ++ "/" ++ output_filename,
          render_custom_template engine content
            (prepare_template_data contacts now))]) ∧
    (contacts ≠ [] →
      ((api_generate_html engine fs pick output_dir templates_dir
          config_template_style now
          (some ⟨some style, some output_filename⟩) contacts).1).template_style =
        some style) := by
  have hsel : select_template_style style pick = style := by
    simp [select_template_style, hrand]
  have hlook := template_files_lookup_not_mem style hmem
  have hload : load_template style templates_dir fs = Except.ok content := by
    simp [load_template, hlook, hfs]
  have hgen : generate_html_file engine fs pick output_dir templates_dir now
      contacts style output_filename =
      Except.ok (output_dir ++ "/" ++ output_filename, style,
        [(output_dir ++ "/" ++ output_filename,
          render_custom_template engine content
            (prepare_template_data contacts now))]) := by
    simp [generate_html_file, hsel, hload]
  refine ⟨hgen, ?_⟩
  intro hne
  have hni : contacts.isEmpty = false := by
    simp [List.isEmpty_iff, hne]
  simp [api_generate_html, hni, hgen]

/-- Witness for c8_unrecognized_style_reported_verbatim at concrete
inputs. -/
theorem c8_unrecognized_style_reported_verbatim_witness :
    ((api_generate_html (fun t _ => t) (fun _ => some "TPL") 0 "out"
        "templates" "modern" "ts"
        (some ⟨some "bogus-style", some "index.html"⟩)
        [[("id", PyVal.int 1)]]).1).template_style = some "bogus-style" := by
  have h := c8_unrecognized_style_reported_verbatim "bogus-style" (by decide)
    (by decide) (fun t _ => t) (fun _ => some "TPL") 0 "out" "templates"
    "modern" "ts" [[("id", PyVal.int 1)]] "index.html" "TPL" rfl
  exact h.2 (by decide)

/-- C9: prepare_contact_data returns the input list with each contact
updated in place and in order — element i of the output is element i of
the input with exactly css_class, badge_class and validation_text set —
the length is unchanged, every other key of every contact reads the same
as before, and the three keys read the computed display attributes. -/
theorem c9_prepare_contact_data_frame (contacts : List Contact) :
    prepare_contact_data contacts = contacts.map prepare_contact_one ∧
    (prepare_contact_data contacts).length = contacts.length ∧
    (∀ i : Nat, (prepare_contact_data contacts)[i]? =
      (contacts[i]?).map prepare_contact_one) ∧
    (∀ (c : Contact) (k : String),
      k ≠ "css_class" → k ≠ "badge_class" → k ≠ "validation_text" →
      alookup (prepare_contact_one c) k = alookup c k) ∧
    (∀ c : Contact,
      alookup (prepare_contact_one c) "css_class" =
        some (PyVal.str
          (get_validation_attributes (dget c "valid" (PyVal.str ""))).1) ∧
      alookup (prepare_contact_one c) "badge_class" =
        some (PyVal.str
          (get_validation_attributes (dget c "valid" (PyVal.str ""))).2.1) ∧
      alookup (prepare_contact_one c) "validation_text" =
        some (PyVal.str
          (get_validation_attributes (dget c "valid" (PyVal.str ""))).2.2)) := by
  refine ⟨rfl, by simp [prepare_contact_data], ?_, ?_, ?_⟩
  · intro i
    simp [prepare_contact_data]
  · intro c k h1 h2 h3
    simp only [prepare_contact_one]
    rw [alookup_dset_ne _ _ _ _ h3, alookup_dset_ne _ _ _ _ h2,
      alookup_dset_ne _ _ _ _ h1]
  · intro c
    refine ⟨?_, ?_, ?_⟩ <;> simp only [prepare_contact_one]
    · rw [alookup_dset_ne _ _ _ _ (by decide),
        alookup_dset_ne _ _ _ _ (by decide), alookup_dset_eq]
    · rw [alookup_dset_ne _ _ _ _ (by decide), alookup_dset_eq]
    · rw [alookup_dset_eq]

/-- Witness for c9_prepare_contact_data_frame at concrete inputs. -/
theorem c9_prepare_contact_data_frame_witness :
    alookup (prepare_contact_one [("id", PyVal.int 7)]) "id" =
      alookup [("id", PyVal.int 7)] "id" :=
  (c9_prepare_contact_data_frame [[("id", PyVal.int 7)]]).2.2.2.1
    [("id", PyVal.int 7)] "id" (by decide) (by decide) (by decide)

/-- C10: in api_generate_html an absent body, or a body lacking a field,
behaves exactly like a body carrying the configured TEMPLATE_STYLE and the
filename "index.html"; and whenever the request succeeds the download_url
is "/download/" followed by the output filename used. -/
theorem c10_generate_defaults_and_download_url
    (engine : String → List Contact × String → String)
    (fs : String → Option String) (pick : Nat)
    (output_dir templates_dir config_template_style now : String)
    (contacts : List Contact) :
    api_generate_html engine fs pick output_dir templates_dir
        config_template_style now Option.none contacts =
      api_generate_html engine fs pick output_dir templates_dir
        config_template_style now (some ⟨Option.none, Option.none⟩) contacts ∧
    api_generate_html engine fs pick output_dir templates_dir
        config_template_style now (some ⟨Option.none, Option.none⟩) contacts =
      api_generate_html engine fs pick output_dir templates_dir
        config_template_style now
        (some ⟨some config_template_style, some "index.html"⟩) contacts ∧
    (∀ body : Option GenRequest,
      ((api_generate_html engine fs pick output_dir templates_dir
          config_template_style now body contacts).1).status = 200 →
      ((api_generate_html engine fs pick output_dir templates_dir
          config_template_style now body contacts).1).download_url =
        some ("/download/" ++
          ((body.getD ⟨Option.none, Option.none⟩).output_filename.getD
            "index.html"))) := by
  refine ⟨rfl, rfl, ?_⟩
  intro body
  simp only [api_generate_html]
  split
  · intro hstatus
    exact absurd hstatus (by simp)
  · split
    · intro _
      rfl
    · intro hstatus
      exact absurd hstatus (by simp)

/-- Witness for c10_generate_defaults_and_download_url at concrete
inputs. -/
theorem c10_generate_defaults_and_download_url_witness :
    ((api_generate_html (fun t _ => t) (fun _ => some "TPL") 0 "out"
        "templates" "modern" "ts" (some ⟨some "modern", some "report.html"⟩)
        [[("id", PyVal.int 1)]]).1).download_url =
      some ("/download/" ++ "report.html") :=
  (c10_generate_defaults_and_download_url (fun t _ => t) (fun _ => some "TPL")
    0 "out" "templates" "modern" "ts" [[("id", PyVal.int 1)]]).2.2
    (some ⟨some "modern", some "report.html"⟩) (by rfl)

/-- C3 counterexample: with zero contacts POST /api/generate responds 404,
not 400 as the claim states, and no file is written. -/
theorem c3_counterexample_empty_store_is_404_not_400 :
    ((api_generate_html (fun t _ => t) (fun _ => some "TPL") 0 "out"
        "templates" "modern" "ts" Option.none []).1).status = 404 ∧
    ((api_generate_html (fun t _ => t) (fun _ => some "TPL") 0 "out"
        "templates" "modern" "ts" Option.none []).1).status ≠ 400 ∧
    (api_generate_html (fun t _ => t) (fun _ => some "TPL") 0 "out"
        "templates" "modern" "ts" Option.none []).2 = [] :=
  ⟨rfl, by decide, rfl⟩

/-- C3 amended: with zero contacts POST /api/generate fails with 404
before any file is written, for every file system; with a nonempty store
and the resolved template file missing it fails with 400, again with no
file written. -/
theorem c3_empty_store_404_missing_template_400
    (engine : String → List Contact × String → String) (pick : Nat)
    (output_dir templates_dir config_template_style now : String)
    (body : Option GenRequest) :
    (∀ fs : String → Option String,
      api_generate_html engine fs pick output_dir templates_dir
          config_template_style now body [] =
        ({ status := 404, error := some "No contacts found",
           output_path := Option.none, template_style := Option.none,
           download_url := Option.none }, [])) ∧
    (∀ contacts : List Contact, contacts ≠ [] →
      ((api_generate_html engine (fun _ => Option.none) pick output_dir
          templates_dir config_template_style now body contacts).1).status =
        400 ∧
      (api_generate_html engine (fun _ => Option.none) pick output_dir
          templates_dir config_template_style now body contacts).2 = []) := by
  constructor
  · intro fs
    rfl
  · intro contacts hne
    have hni : contacts.isEmpty = false := by simp [List.isEmpty_iff, hne]
    constructor <;>
      simp [api_generate_html, hni, generate_html_file, load_template]

/-- Witness for c3_empty_store_404_missing_template_400 at concrete
inputs. -/
theorem c3_empty_store_404_missing_template_400_witness :
    ((api_generate_html (fun t _ => t) (fun _ => Option.none) 0 "out"
        "templates" "modern" "ts" Option.none
        [[("id", PyVal.int 1)]]).1).status = 400 :=
  ((c3_empty_store_404_missing_template_400 (fun t _ => t) 0 "out"
    "templates" "modern" "ts" Option.none).2
    [[("id", PyVal.int 1)]] (by decide)).1

/-- When every store write succeeds, the /api/validate loop processes the
contacts strictly in store order: it returns the validated list and
commits one update per contact, in order. -/
theorem validate_all_loop_all_ok (auth_id auth_token : Option String)
    (net : Nat → HttpOutcome) (writeOk : Nat → Bool)
    (hok : ∀ i, writeOk i = true) :
    ∀ (cs : List Contact) (start : Nat),
      validate_all_loop auth_id auth_token net writeOk cs start =
        (Except.ok (expected_validated auth_id auth_token net cs start),
         expected_commits auth_id auth_token net cs start cs.length)
  | [], _ => rfl
  | c :: rest, start => by
    have ih := validate_all_loop_all_ok auth_id auth_token net writeOk hok
      rest (start + 1)
    simp [validate_all_loop, hok start, ih,
      expected_validated, expected_commits]

/-- When the j-th store write fails after j successful ones, the
/api/validate loop stops with the error and exactly the first j updates
committed, in store order. -/
theorem validate_all_loop_fail (auth_id auth_token : Option String)
    (net : Nat → HttpOutcome) (writeOk : Nat → Bool) :
    ∀ (cs : List Contact) (start j : Nat), j < cs.length →
      (∀ i, i < j → writeOk (start + i) = true) →
      writeOk (start + j) = false →
      validate_all_loop auth_id auth_token net writeOk cs start =
        (Except.error (), expected_commits auth_id auth_token net cs start j)
  | [], _, j, hj, _, _ => absurd hj (Nat.not_lt_zero j)
  | c :: rest, start, 0, _, _, hfail => by
    have h0 : writeOk start = false := by
      rw [show start = start + 0 by omega]
      exact hfail
    simp [validate_all_loop, h0, expected_commits]
  | c :: rest, start, j + 1, hj, hbefore, hfail => by
    have h0 : writeOk start = true := by
      have h := hbefore 0 (Nat.succ_pos j)
      rw [show start = start + 0 by omega]
      exact h
    have ih := validate_all_loop_fail auth_id auth_token net writeOk rest
      (start + 1) j (Nat.lt_of_succ_lt_succ hj)
      (fun i hi => by
        have h := hbefore (i + 1) (Nat.succ_lt_succ hi)
        rw [show start + 1 + i = start + (i + 1) by omega]
        exact h)
      (by
        rw [show start + 1 + j = start + (j + 1) by omega]
        exact hfail)
    simp [validate_all_loop, h0, ih, expected_commits]

/-- C4 counterexample: with three contacts and a validator transport error
on the second one, POST /api/validate does not abort with 500 — the
sentinel "Validation Failed" is committed for that contact and all three
updates go through. -/
theorem c4_counterexample_transport_error_returns_ok :
    (api_validate_addresses (some "id") (some "tok")
      (fun i => if i = 1 then HttpOutcome.transportError "timeout"
        else HttpOutcome.response 200 ["cand"])
      (fun _ => true) c4_three_contacts).1 ≠
      ValidateResponse.err 500 "Database connection failed" ∧
    (api_validate_addresses (some "id") (some "tok")
      (fun i => if i = 1 then HttpOutcome.transportError "timeout"
        else HttpOutcome.response 200 ["cand"])
      (fun _ => true) c4_three_contacts).2.length = 3 ∧
    (api_validate_addresses (some "id") (some "tok")
      (fun i => if i = 1 then HttpOutcome.transportError "timeout"
        else HttpOutcome.response 200 ["cand"])
      (fun _ => true) c4_three_contacts).2[1]? =
      some (PyVal.int 2, ValidationResult.sentinel "Validation Failed") := by
  refine ⟨by decide, by decide, by decide⟩

/-- C4 amended: POST /api/validate processes the contacts strictly in
store order; when the j-th store write raises after j successful ones the
request aborts with 500 "Database connection failed" while the j earlier
committed updates remain persisted, in order; a validator error alone
(every store write succeeding) never aborts: the request succeeds with
every contact validated and committed. -/
theorem c4_store_failure_aborts_earlier_commits_persist
    (auth_id auth_token : Option String) (net : Nat → HttpOutcome)
    (writeOk : Nat → Bool) (contacts : List Contact) :
    (∀ j : Nat, j < contacts.length →
      (∀ i, i < j → writeOk i = true) → writeOk j = false →
      api_validate_addresses auth_id auth_token net writeOk contacts =
        (ValidateResponse.err 500 "Database connection failed",
         expected_commits auth_id auth_token net contacts 0 j)) ∧
    ((∀ i, writeOk i = true) → contacts ≠ [] →
      api_validate_addresses auth_id auth_token net writeOk contacts =
        (ValidateResponse.ok
          (expected_validated auth_id auth_token net contacts 0)
          (expected_validated auth_id auth_token net contacts 0).length,
         expected_commits auth_id auth_token net contacts 0
           contacts.length)) := by
  constructor
  · intro j hj hbefore hfail
    have hne : contacts ≠ [] := by
      intro h
      rw [h] at hj
      exact absurd hj (Nat.not_lt_zero j)
    have hni : contacts.isEmpty = false := by simp [List.isEmpty_iff, hne]
    have hloop := validate_all_loop_fail auth_id auth_token net writeOk
      contacts 0 j hj
      (fun i hi => by rw [Nat.zero_add]; exact hbefore i hi)
      (by rw [Nat.zero_add]; exact hfail)
    simp [api_validate_addresses, hni, hloop]
  · intro hok hne
    have hni : contacts.isEmpty = false := by simp [List.isEmpty_iff, hne]
    have hloop := validate_all_loop_all_ok auth_id auth_token net writeOk hok
      contacts 0
    simp [api_validate_addresses, hni, hloop]

/-- Witness for c4_store_failure_aborts_earlier_commits_persist at
concrete inputs. -/
theorem c4_store_failure_aborts_earlier_commits_persist_witness :
    api_validate_addresses (some "id") (some "tok")
      (fun _ => HttpOutcome.response 200 ["cand"]) (fun i => decide (i < 1))
      c4_three_contacts =
      (ValidateResponse.err 500 "Database connection failed",
       expected_commits (some "id") (some "tok")
         (fun _ => HttpOutcome.response 200 ["cand"]) c4_three_contacts 0 1) :=
  (c4_store_failure_aborts_earlier_commits_persist (some "id") (some "tok")
    (fun _ => HttpOutcome.response 200 ["cand"]) (fun i => decide (i < 1))
    c4_three_contacts).1 1 (by decide)
    (fun i hi => decide_eq_true hi) (by decide)
